import Mathlib

/-!
Verification of the resilient LM-provider call layer of `genkithandler`
(`internal/providers/googleai.go`) and, where the repository only declares a
component without shipping its implementation, of models built from the
specification (`LegacyProviderManager` fallback dispatch, Scratchpad memory).

The Go code is embedded shallowly: the retry loops become a fuel-indexed
recursion over an explicit sequence of call outcomes, errors become strings
(the code only ever inspects `err.Error()`), the `context.Context` becomes a
Boolean cancellation schedule indexed by attempt number, and durations become
natural numbers of nanoseconds.  The only retry configuration the program ever
constructs is `MaxRetries = 3, BaseDelay = 1s, MaxDelay = 30s`
(`NewGoogleAIProvider`), so `Nat` arithmetic is exact for every reachable
delay computation.
-/

/-- `RetryConfig` from googleai.go: `MaxRetries`, `BaseDelay`, `MaxDelay`
(durations in nanoseconds). -/
structure RetryConfig where
  maxRetries : Nat
  baseDelay : Nat
  maxDelay : Nat

/-- The retry configuration installed by `NewGoogleAIProvider`:
3 retries, base delay 1s, max delay 30s. -/
def defaultRetryConfig : RetryConfig :=
  { maxRetries := 3, baseDelay := 1000000000, maxDelay := 30000000000 }

/-- Is `pat` a prefix of `s`?  (Char-list version of Go's prefix test used to
implement `strings.Contains`.) -/
def charsPrefix : List Char → List Char → Bool
  | [], _ => true
  | _ :: _, [] => false
  | a :: as, b :: bs => a == b && charsPrefix as bs

/-- Does `s` contain `pat` as a contiguous substring?  Models Go's
`strings.Contains`. -/
def charsContains : List Char → List Char → Bool
  | [], pat => pat.isEmpty
  | c :: rest, pat => charsPrefix pat (c :: rest) || charsContains rest pat

/-- Go's `strings.ToLower`, restricted to the ASCII case folding that the
retryable patterns (all ASCII) can be affected by. -/
def charsToLower (s : List Char) : List Char :=
  s.map Char.toLower

/-- The retryable error-message patterns from `isRetryable` in googleai.go. -/
def retryablePatterns : List String :=
  ["rate limit", "too many requests", "quota exceeded", "service unavailable",
   "internal error", "timeout", "connection reset", "temporary failure",
   "server error", "resource exhausted"]

/-- `isRetryable` from googleai.go: a nil error is not retryable; otherwise the
lower-cased message is scanned for the transient patterns with
`strings.Contains`. -/
def isRetryable : Option String → Bool
  | none => false
  | some s =>
    retryablePatterns.any (fun pat => charsContains (charsToLower s.toList) pat.toList)

/-- Outcome of a `withRetry` / `withRetryStructured` run: success, the
context's error (cancellation during backoff), or the aggregated failure
`"... failed after %d attempts: %w"` which records the attempt count it
reports and the error it wraps. -/
inductive RetryResult (α : Type) where
  | ok (v : α)
  | ctxErr
  | aggFailure (attemptsReported : Nat) (lastErr : Option String)

/-- Observable trace of one retry-loop run: the returned result, how many
times the wrapped function `fn` was invoked, and the backoff delays actually
waited (in order). -/
structure RetryTrace (α : Type) where
  result : RetryResult α
  calls : Nat
  delays : List Nat

/-- The backoff delay computed before retry attempt `attempt ≥ 1`:
`min(BaseDelay * (1 << (attempt-1)), MaxDelay)`. -/
def backoffDelay (cfg : RetryConfig) (attempt : Nat) : Nat :=
  min (cfg.baseDelay * 2 ^ (attempt - 1)) cfg.maxDelay

/-- The body of the `for attempt := 0; attempt <= MaxRetries; attempt++` loop
shared by `withRetry` and `withRetryStructured`.  `fn k` is the outcome of the
`k`-th invocation of the wrapped closure, `cancelled k` says whether the
context is done during the backoff select preceding attempt `k`, `fuel` is the
number of loop iterations left (`MaxRetries + 1 - attempt`), and `lastErr` is
the Go `lastErr` variable.  Falling out of the loop yields the aggregated
error, which always reports `MaxRetries + 1` attempts. -/
def retryLoop {α : Type} (cfg : RetryConfig) (fn : Nat → Except String α)
    (cancelled : Nat → Bool) : Nat → Nat → Option String → RetryTrace α
  | 0, _, lastErr =>
    { result := RetryResult.aggFailure (cfg.maxRetries + 1) lastErr,
      calls := 0, delays := [] }
  | fuel + 1, attempt, _lastErr =>
    if 0 < attempt ∧ cancelled attempt = true then
      { result := RetryResult.ctxErr, calls := 0, delays := [] }
    else
      let ds := if 0 < attempt then [backoffDelay cfg attempt] else []
      match fn attempt with
      | Except.ok v => { result := RetryResult.ok v, calls := 1, delays := ds }
      | Except.error e =>
        if isRetryable (some e) then
          let t := retryLoop cfg fn cancelled fuel (attempt + 1) (some e)
          { result := t.result, calls := t.calls + 1, delays := ds ++ t.delays }
        else
          { result := RetryResult.aggFailure (cfg.maxRetries + 1) (some e),
            calls := 1, delays := ds }

/-- A context that never cancels. -/
def noCancel : Nat → Bool := fun _ => false

/-- `withRetry` from googleai.go, as the trace of its loop started at
attempt 0 with `lastErr = nil`. -/
def withRetry {α : Type} (cfg : RetryConfig) (fn : Nat → Except String α)
    (cancelled : Nat → Bool) : RetryTrace α :=
  retryLoop cfg fn cancelled (cfg.maxRetries + 1) 0 none

/-- `withRetryStructured` from googleai.go.  Its Go body is identical to
`withRetry` except for the result type and the wording of the log/aggregate
messages, so it is the same loop. -/
def withRetryStructured {α : Type} (cfg : RetryConfig)
    (fn : Nat → Except String α) (cancelled : Nat → Bool) : RetryTrace α :=
  retryLoop cfg fn cancelled (cfg.maxRetries + 1) 0 none

/-- `GoogleAIProviderConfig` from googleai.go (`api_key`, `default_model`). -/
structure GoogleAIProviderConfig where
  apiKey : String
  defaultModel : String

/-- The mutable state of a `GoogleAIProvider`: the `initialized` flag, the
retry configuration, the parsed configuration, and whether the genkit instance
pointer has been set. -/
structure GoogleAIProvider where
  initialized : Bool
  retryConfig : RetryConfig
  config : GoogleAIProviderConfig
  genkitReady : Bool

/-- `NewGoogleAIProvider`: default retry configuration, not initialized,
zero-valued configuration, nil genkit instance. -/
def newGoogleAIProvider : GoogleAIProvider :=
  { initialized := false, retryConfig := defaultRetryConfig,
    config := { apiKey := "", defaultModel := "" }, genkitReady := false }

/-- A value of Go's `interface{}` as far as `parseConfig` can observe it: a
string, or anything whose type assertion to `string` fails. -/
inductive GoValue where
  | str (s : String)
  | other

/-- `parseConfig` from googleai.go: read `config["api_key"]` and
`config["default_model"]` when they are strings, leaving the zero value `""`
otherwise (missing key or failed type assertion).  It never returns an
error. -/
def parseConfig (config : List (String × GoValue)) : GoogleAIProviderConfig :=
  let apiKey := match config.lookup "api_key" with
    | some (GoValue.str s) => s
    | _ => ""
  let defaultModel := match config.lookup "default_model" with
    | some (GoValue.str s) => s
    | _ => ""
  { apiKey := apiKey, defaultModel := defaultModel }

/-- One call to `Initialize`: the configuration map plus the outcomes of the
two external initialization steps (`genkit.Init`, `googleAIPlugin.Init`),
which are outside the model's control. -/
structure InitCall where
  config : List (String × GoValue)
  genkitOk : Bool
  pluginOk : Bool

/-- `Initialize` from googleai.go.  Mirrors the order of effects in the
source: the empty-API-key check happens before `p.config` is assigned, the
default model is filled in, `p.config` is assigned before `genkit.Init` runs,
and `p.initialized` becomes true only after both external steps succeed. -/
def initProvider (p : GoogleAIProvider) (c : InitCall) :
    Except String Unit × GoogleAIProvider :=
  let gc := parseConfig c.config
  if gc.apiKey = "" then
    (Except.error "Google AI API key is required", p)
  else
    let gc2 : GoogleAIProviderConfig :=
      if gc.defaultModel = "" then
        { apiKey := gc.apiKey, defaultModel := "gemini-1.5-flash" }
      else gc
    let p1 : GoogleAIProvider := { p with config := gc2 }
    if c.genkitOk = false then
      (Except.error "failed to initialize Genkit", p1)
    else if c.pluginOk = false then
      (Except.error "failed to initialize Google AI plugin", p1)
    else
      (Except.ok (), { p1 with genkitReady := true, initialized := true })

/-- Did an `Except` computation succeed? -/
def exceptOk {ε α : Type} : Except ε α → Bool
  | Except.ok _ => true
  | Except.error _ => false

/-- Run a sequence of `Initialize` calls from a starting state, returning the
final state and each call's success flag. -/
def runInits : GoogleAIProvider → List InitCall → GoogleAIProvider × List Bool
  | p, [] => (p, [])
  | p, c :: cs =>
    let r := initProvider p c
    let rest := runInits r.2 cs
    (rest.1, exceptOk r.1 :: rest.2)

/-- `IsAvailable` from googleai.go: `p.config.APIKey != "" && p.initialized`. -/
def isAvailable (p : GoogleAIProvider) : Bool :=
  (p.config.apiKey != "") && p.initialized

/-- Map a retry-loop result to the `(value, error)` pair the provider methods
return; the aggregated failure renders the message of
`fmt.Errorf("... failed after %d attempts: %w", ...)`. -/
def retryResultToExcept {α : Type} : RetryResult α → Except String α
  | RetryResult.ok v => Except.ok v
  | RetryResult.ctxErr => Except.error "context error"
  | RetryResult.aggFailure n e =>
    Except.error ("google AI request failed after " ++ toString n ++ " attempts: " ++ e.getD "")

/-- `GenerateText` from googleai.go: guard on `initialized`, then run the
generation closure under `withRetry`.  Returns the result, the (unchanged)
provider state, and the number of model invocations performed. -/
def generateText (p : GoogleAIProvider) (fn : Nat → Except String String)
    (cancelled : Nat → Bool) : Except String String × GoogleAIProvider × Nat :=
  if p.initialized = false then
    (Except.error "provider not initialized", p, 0)
  else
    let t := withRetry p.retryConfig fn cancelled
    (retryResultToExcept t.result, p, t.calls)

/-- `GenerateWithStructuredOutput` from googleai.go: guard on `initialized`,
then run the structured-generation closure under `withRetryStructured`. -/
def generateWithStructuredOutput {α : Type} (p : GoogleAIProvider)
    (fn : Nat → Except String α) (cancelled : Nat → Bool) :
    Except String α × GoogleAIProvider × Nat :=
  if p.initialized = false then
    (Except.error "provider not initialized", p, 0)
  else
    let t := withRetryStructured p.retryConfig fn cancelled
    (retryResultToExcept t.result, p, t.calls)

/-- `ToolCallResult` from the providers package (duration and metadata
omitted: no claim mentions them). -/
structure ToolCallResult where
  result : Option String
  success : Bool
  errMsg : Option String

/-- `CallTool` from googleai.go: guard on `initialized`, reject an empty tool
name, otherwise run the tool prompt under `withRetry`.  Returns the
`*ToolCallResult`, the error, the (unchanged) provider state, and the number
of model invocations. -/
def callTool (p : GoogleAIProvider) (toolName : String)
    (fn : Nat → Except String String) (cancelled : Nat → Bool) :
    Option ToolCallResult × Option String × GoogleAIProvider × Nat :=
  if p.initialized = false then
    (none, some "provider not initialized", p, 0)
  else if toolName = "" then
    (some { result := none, success := false, errMsg := some "tool name cannot be empty" },
     some "tool name cannot be empty", p, 0)
  else
    let t := withRetry p.retryConfig fn cancelled
    match retryResultToExcept t.result with
    | Except.ok v =>
      (some { result := some v, success := true, errMsg := none }, none, p, t.calls)
    | Except.error e =>
      (some { result := none, success := false, errMsg := some e }, some e, p, t.calls)

/-- Run-length compression of a character list.  Modelled from the spec: the
Scratchpad implementation is not under src/ (only docs/agentic-rag-flow.md
step 7 mentions it: "compressed after write, uncompressed before read"); the
spec's design notes leave the compression scheme an implementation choice, so
a concrete invertible scheme stands in for it. -/
def rleCompress : List Char → List (Char × Nat)
  | [] => []
  | c :: rest =>
    match rleCompress rest with
    | [] => [(c, 1)]
    | (d, n) :: t => if c = d then (d, n + 1) :: t else (c, 1) :: (d, n) :: t

/-- Decompression inverse to `rleCompress`. -/
def rleDecompress : List (Char × Nat) → List Char
  | [] => []
  | (c, n) :: t => List.replicate n c ++ rleDecompress t

/-- A Scratchpad entry: iteration id plus compressed content (`createdAt`
omitted: no claim mentions it). -/
structure ScratchpadEntry where
  iterationId : Nat
  compressedContent : List (Char × Nat)

/-- Modelled from the spec: `Write(iterationId, note)` compresses `note` and
stores/overwrites the entry for `iterationId` (§4.5); entries are never
mutated in place, a write either appends a new iteration entry or overwrites
the entry for the same iteration id (§3). -/
def scratchpadWrite (sp : List ScratchpadEntry) (id : Nat) (note : List Char) :
    List ScratchpadEntry :=
  { iterationId := id, compressedContent := rleCompress note } ::
    sp.filter (fun e => e.iterationId != id)

/-- Modelled from the spec: `Read(iterationId) -> note` decompresses on demand
(§4.5); `none` when no entry exists for the id. -/
def scratchpadRead (sp : List ScratchpadEntry) (id : Nat) : Option (List Char) :=
  match sp.find? (fun e => e.iterationId == id) with
  | some e => some (rleDecompress e.compressedContent)
  | none => none

/-- Observable outcome of one Gateway call through the provider manager: the
surfaced result, the number of calls made to the primary provider's closure,
and the number of times the fallback provider was attempted. -/
structure ManagerOut (α : Type) where
  result : Except String α
  primaryCalls : Nat
  fallbackCalls : Nat

/-- Modelled from the spec: the source declares `LegacyProviderManager` with
`primary` and `fallback` fields but ships no dispatch method under src/.
Spec §4.8: "If a fallback provider is configured and the primary is
unavailable or exhausts retries, the Gateway attempts the fallback once before
surfacing failure."  The primary runs under the §4.8 retry policy
(`withRetry`); the fallback is attempted exactly once, and its outcome is what
the caller sees. -/
def managerCall {α : Type} (cfg : RetryConfig) (primaryAvailable : Bool)
    (primaryFn : Nat → Except String α) (fallbackConfigured : Bool)
    (fallbackFn : Unit → Except String α) : ManagerOut α :=
  if primaryAvailable then
    let t := withRetry cfg primaryFn noCancel
    match t.result with
    | RetryResult.ok v => { result := Except.ok v, primaryCalls := t.calls, fallbackCalls := 0 }
    | _ =>
      if fallbackConfigured then
        { result := fallbackFn (), primaryCalls := t.calls, fallbackCalls := 1 }
      else
        { result := Except.error "provider call failed", primaryCalls := t.calls,
          fallbackCalls := 0 }
  else
    if fallbackConfigured then
      { result := fallbackFn (), primaryCalls := 0, fallbackCalls := 1 }
    else
      { result := Except.error "provider unavailable", primaryCalls := 0, fallbackCalls := 0 }

/-- Stub generation closure for the C1 witness: one transient failure, then
success. -/
def c1fn : Nat → Except String Nat :=
  fun k => if k = 0 then Except.error "timeout" else Except.ok 3

/-- Stub generation closure for the C1 counterexample: fails transiently
exactly once (= `maxRetries` of the configuration it is used with), then
succeeds. -/
def c1cfn : Nat → Except String Nat :=
  fun k => if k = 0 then Except.error "rate limit" else Except.ok 11

/-- Stub closure for the C2 witness: a fatal (non-transient) error on the
first call. -/
def c2fn : Nat → Except String Nat :=
  fun _ => Except.error "invalid api key"

/-- Retry configuration for the C3 witness. -/
def c3cfg : RetryConfig := { maxRetries := 2, baseDelay := 5, maxDelay := 20 }

/-- Stub closure for the C3 witness: one transient failure, then success. -/
def c3fn : Nat → Except String Nat :=
  fun k => if k = 0 then Except.error "timeout" else Except.ok 1

/-- A schema-validation failure message as the structured path would surface
it; it matches none of the transient patterns. -/
def c4err : String := "generated output does not match the expected schema"

/-- Stub structured-generation closure for the C4 counterexample: always
returns the schema-validation failure. -/
def c4fn : Nat → Except String Nat := fun _ => Except.error c4err

/-- Stub structured-generation closure for the C4 witness. -/
def c4wfn : Nat → Except String Nat := fun _ => Except.error "invalid json"

/-- Stub closure for the C6 and C7 witnesses: every call fails transiently. -/
def c6fn : Nat → Except String Nat := fun _ => Except.error "rate limit"

/-- Cancellation schedule for the C7 witness: the context is done from the
first backoff wait on. -/
def c7cancel : Nat → Bool := fun i => decide (1 ≤ i)

example :
    (withRetry { maxRetries := 1, baseDelay := 1, maxDelay := 4 }
      (fun k => if k = 0 then Except.error "timeout" else Except.ok 7)
      noCancel).calls = 2 := by
  rfl

example : isRetryable (some "Request Timeout") = true := by rfl

example : isRetryable (some "invalid api key") = false := by rfl

/-- If the first `j` calls (starting at attempt `a`) fail with retryable
errors and call `a + j` succeeds, the loop returns that success having invoked
the closure exactly `j + 1` times. -/
theorem retryLoop_success {α : Type} (cfg : RetryConfig) (fn : Nat → Except String α)
    (errs : Nat → String) (v : α) :
    ∀ (j fuel a : Nat) (lastE : Option String), j < fuel →
      (∀ i, i < j → fn (a + i) = Except.error (errs (a + i))) →
      (∀ i, i < j → isRetryable (some (errs (a + i))) = true) →
      fn (a + j) = Except.ok v →
      (retryLoop cfg fn noCancel fuel a lastE).result = RetryResult.ok v ∧
      (retryLoop cfg fn noCancel fuel a lastE).calls = j + 1 := by
  intro j
  induction j with
  | zero =>
    intro fuel a lastE hj _ _ hok
    match fuel, hj with
    | fuel + 1, _ =>
      rw [Nat.add_zero] at hok
      simp only [retryLoop, noCancel]
      rw [if_neg (by simp)]
      simp [hok]
  | succ j ih =>
    intro fuel a lastE hj hfail hret hok
    match fuel, hj with
    | fuel + 1, hj =>
      have h0 : fn a = Except.error (errs a) := by
        have := hfail 0 (Nat.succ_pos j); simpa using this
      have hr0 : isRetryable (some (errs a)) = true := by
        have := hret 0 (Nat.succ_pos j); simpa using this
      have hrec := ih fuel (a + 1) (some (errs a)) (Nat.lt_of_succ_lt_succ hj)
        (fun i hi => by
          have := hfail (i + 1) (Nat.succ_lt_succ hi)
          rwa [show a + (i + 1) = a + 1 + i by omega] at this)
        (fun i hi => by
          have := hret (i + 1) (Nat.succ_lt_succ hi)
          rwa [show a + (i + 1) = a + 1 + i by omega] at this)
        (by rwa [show a + (j + 1) = a + 1 + j by omega] at hok)
      simp only [retryLoop, noCancel]
      rw [if_neg (by simp)]
      simp only [h0, hr0, if_true]
      exact ⟨hrec.1, by simp [hrec.2]⟩

/-- If every one of the `fuel` remaining calls fails with a retryable error,
the loop exhausts its fuel: it makes exactly `fuel` calls and returns the
aggregated failure, which reports `maxRetries + 1` attempts and wraps the
error of the last call. -/
theorem retryLoop_exhaust {α : Type} (cfg : RetryConfig) (fn : Nat → Except String α)
    (errs : Nat → String) :
    ∀ (fuel a : Nat) (lastE : Option String),
      (∀ i, i < fuel → fn (a + i) = Except.error (errs (a + i))) →
      (∀ i, i < fuel → isRetryable (some (errs (a + i))) = true) →
      (retryLoop cfg fn noCancel fuel a lastE).result =
        RetryResult.aggFailure (cfg.maxRetries + 1)
          (if fuel = 0 then lastE else some (errs (a + fuel - 1))) ∧
      (retryLoop cfg fn noCancel fuel a lastE).calls = fuel := by
  intro fuel
  induction fuel with
  | zero =>
    intro a lastE _ _
    simp [retryLoop]
  | succ fuel ih =>
    intro a lastE hfail hret
    have h0 : fn a = Except.error (errs a) := by
      have := hfail 0 (Nat.succ_pos fuel); simpa using this
    have hr0 : isRetryable (some (errs a)) = true := by
      have := hret 0 (Nat.succ_pos fuel); simpa using this
    have hrec := ih (a + 1) (some (errs a))
      (fun i hi => by
        have := hfail (i + 1) (Nat.succ_lt_succ hi)
        rwa [show a + (i + 1) = a + 1 + i by omega] at this)
      (fun i hi => by
        have := hret (i + 1) (Nat.succ_lt_succ hi)
        rwa [show a + (i + 1) = a + 1 + i by omega] at this)
    simp only [retryLoop, noCancel]
    rw [if_neg (by simp)]
    simp only [h0, hr0, if_true]
    refine ⟨?_, by simp [hrec.2]⟩
    rcases Nat.eq_zero_or_pos fuel with hf | hf
    · subst hf
      simpa using hrec.1
    · have : ¬ fuel = 0 := by omega
      rw [hrec.1]
      simp only [this, if_false, Nat.succ_ne_zero, if_neg (Nat.succ_ne_zero fuel)]
      rw [show a + 1 + fuel - 1 = a + (fuel + 1) - 1 by omega]

/-- If the first `j` calls fail with retryable errors and call `a + j` fails
with a non-retryable error `e`, the loop stops right there: `j + 1` calls in
total, returning the aggregated failure wrapping `e` (still reporting
`maxRetries + 1` attempts). -/
theorem retryLoop_fatal {α : Type} (cfg : RetryConfig) (fn : Nat → Except String α)
    (errs : Nat → String) (e : String) :
    ∀ (j fuel a : Nat) (lastE : Option String), j < fuel →
      (∀ i, i < j → fn (a + i) = Except.error (errs (a + i))) →
      (∀ i, i < j → isRetryable (some (errs (a + i))) = true) →
      fn (a + j) = Except.error e →
      isRetryable (some e) = false →
      (retryLoop cfg fn noCancel fuel a lastE).result =
        RetryResult.aggFailure (cfg.maxRetries + 1) (some e) ∧
      (retryLoop cfg fn noCancel fuel a lastE).calls = j + 1 := by
  intro j
  induction j with
  | zero =>
    intro fuel a lastE hj _ _ herr hnr
    match fuel, hj with
    | fuel + 1, _ =>
      rw [Nat.add_zero] at herr
      simp only [retryLoop, noCancel]
      rw [if_neg (by simp)]
      simp [herr, hnr]
  | succ j ih =>
    intro fuel a lastE hj hfail hret herr hnr
    match fuel, hj with
    | fuel + 1, hj =>
      have h0 : fn a = Except.error (errs a) := by
        have := hfail 0 (Nat.succ_pos j); simpa using this
      have hr0 : isRetryable (some (errs a)) = true := by
        have := hret 0 (Nat.succ_pos j); simpa using this
      have hrec := ih fuel (a + 1) (some (errs a)) (Nat.lt_of_succ_lt_succ hj)
        (fun i hi => by
          have := hfail (i + 1) (Nat.succ_lt_succ hi)
          rwa [show a + (i + 1) = a + 1 + i by omega] at this)
        (fun i hi => by
          have := hret (i + 1) (Nat.succ_lt_succ hi)
          rwa [show a + (i + 1) = a + 1 + i by omega] at this)
        (by rwa [show a + (j + 1) = a + 1 + j by omega] at herr)
        hnr
      simp only [retryLoop, noCancel]
      rw [if_neg (by simp)]
      simp only [h0, hr0, if_true]
      exact ⟨hrec.1, by simp [hrec.2]⟩

/-- The backoff delays any run of the loop actually waits are exactly the
delays of consecutive attempts `max a 1, max a 1 + 1, ...` (attempt 0 never
waits), each computed by `backoffDelay`. -/
theorem retryLoop_delays {α : Type} (cfg : RetryConfig) (fn : Nat → Except String α)
    (cancelled : Nat → Bool) :
    ∀ (fuel a : Nat) (lastE : Option String),
      ∃ n, (retryLoop cfg fn cancelled fuel a lastE).delays =
        (List.range' (max a 1) n).map (backoffDelay cfg) := by
  intro fuel
  induction fuel with
  | zero =>
    intro a lastE
    exact ⟨0, by simp [retryLoop]⟩
  | succ fuel ih =>
    intro a lastE
    by_cases hc : 0 < a ∧ cancelled a = true
    · exact ⟨0, by simp [retryLoop, hc]⟩
    · rcases Nat.eq_zero_or_pos a with ha | ha
      · subst ha
        simp only [retryLoop, if_neg hc]
        cases hf : fn 0 with
        | ok v => exact ⟨0, by simp⟩
        | error e =>
          by_cases hr : isRetryable (some e) = true
          · rcases ih 1 (some e) with ⟨n, hn⟩
            exact ⟨n, by simp [hr, hn]⟩
          · simp only [Bool.not_eq_true] at hr
            exact ⟨0, by simp [hr]⟩
      · have hmax : max a 1 = a := by omega
        simp only [retryLoop, if_neg hc, if_pos ha, hmax]
        cases hf : fn a with
        | ok v =>
          refine ⟨1, ?_⟩
          simp [List.range'_succ]
        | error e =>
          by_cases hr : isRetryable (some e) = true
          · rcases ih (a + 1) (some e) with ⟨n, hn⟩
            have hmax1 : max (a + 1) 1 = a + 1 := by omega
            rw [hmax1] at hn
            refine ⟨n + 1, ?_⟩
            simp [hr, hn, List.range'_succ]
          · simp only [Bool.not_eq_true] at hr
            refine ⟨1, ?_⟩
            simp [hr, List.range'_succ]

/-- If the first `j` calls fail with retryable errors, no earlier backoff wait
was cancelled, and the context is done during the backoff select preceding
attempt `j` (`1 ≤ j`), the loop returns the context's error having made
exactly `j` calls — none after the cancellation. -/
theorem retryLoop_cancel {α : Type} (cfg : RetryConfig) (fn : Nat → Except String α)
    (cancelled : Nat → Bool) (errs : Nat → String) :
    ∀ (j fuel a : Nat) (lastE : Option String), j < fuel → 1 ≤ a + j →
      (∀ i, i < j → fn (a + i) = Except.error (errs (a + i))) →
      (∀ i, i < j → isRetryable (some (errs (a + i))) = true) →
      (∀ i, i < j → 1 ≤ a + i → cancelled (a + i) = false) →
      cancelled (a + j) = true →
      (retryLoop cfg fn cancelled fuel a lastE).result = RetryResult.ctxErr ∧
      (retryLoop cfg fn cancelled fuel a lastE).calls = j := by
  intro j
  induction j with
  | zero =>
    intro fuel a lastE hj ha _ _ _ hc
    match fuel, hj with
    | fuel + 1, _ =>
      rw [Nat.add_zero] at hc
      have : 0 < a := by omega
      simp [retryLoop, this, hc]
  | succ j ih =>
    intro fuel a lastE hj _ hfail hret hquiet hc
    match fuel, hj with
    | fuel + 1, hj =>
      have h0 : fn a = Except.error (errs a) := by
        have := hfail 0 (Nat.succ_pos j); simpa using this
      have hr0 : isRetryable (some (errs a)) = true := by
        have := hret 0 (Nat.succ_pos j); simpa using this
      have hnc : ¬ (0 < a ∧ cancelled a = true) := by
        rintro ⟨hpos, hca⟩
        have := hquiet 0 (Nat.succ_pos j) (by omega)
        rw [Nat.add_zero] at this
        rw [this] at hca
        exact Bool.false_ne_true hca
      have hrec := ih fuel (a + 1) (some (errs a)) (Nat.lt_of_succ_lt_succ hj)
        (by omega)
        (fun i hi => by
          have := hfail (i + 1) (Nat.succ_lt_succ hi)
          rwa [show a + (i + 1) = a + 1 + i by omega] at this)
        (fun i hi => by
          have := hret (i + 1) (Nat.succ_lt_succ hi)
          rwa [show a + (i + 1) = a + 1 + i by omega] at this)
        (fun i hi hle => by
          have := hquiet (i + 1) (Nat.succ_lt_succ hi) (by omega)
          rwa [show a + (i + 1) = a + 1 + i by omega] at this)
        (by rwa [show a + (j + 1) = a + 1 + j by omega] at hc)
      simp only [retryLoop, if_neg hnc]
      simp only [h0, hr0, if_true]
      exact ⟨hrec.1, by simp [hrec.2]⟩

/-- Run-length decompression inverts run-length compression. -/
theorem rle_roundtrip (l : List Char) : rleDecompress (rleCompress l) = l := by
  induction l with
  | nil => rfl
  | cons c rest ih =>
    rw [rleCompress]
    cases h : rleCompress rest with
    | nil =>
      rw [h] at ih
      simp only [rleDecompress] at ih ⊢
      simp [← ih]
    | cons dn t =>
      rcases dn with ⟨d, n⟩
      rw [h] at ih
      show rleDecompress (if c = d then (d, n + 1) :: t else (c, 1) :: (d, n) :: t) = c :: rest
      by_cases hcd : c = d
      · subst hcd
        rw [if_pos rfl]
        simp only [rleDecompress, List.replicate_succ] at ih ⊢
        simp [ih]
      · rw [if_neg hcd]
        simp only [rleDecompress, List.replicate_succ] at ih ⊢
        simp [ih]

/-- `Initialize` preserves the invariant that an initialized provider has a
non-empty API key: the key is validated before it is stored, and the
`initialized` flag is only raised in the success branch. -/
theorem initProvider_inv (p : GoogleAIProvider) (c : InitCall)
    (hp : p.initialized = true → p.config.apiKey ≠ "") :
    (initProvider p c).2.initialized = true → (initProvider p c).2.config.apiKey ≠ "" := by
  by_cases hk : (parseConfig c.config).apiKey = ""
  · simpa [initProvider, hk] using hp
  · by_cases hdm : (parseConfig c.config).defaultModel = ""
    · by_cases hg : c.genkitOk = false
      · simp [initProvider, hk, hdm, hg]
      · by_cases hpl : c.pluginOk = false
        · simp [initProvider, hk, hdm, hg, hpl]
        · simp [initProvider, hk, hdm, hg, hpl]
    · by_cases hg : c.genkitOk = false
      · simp [initProvider, hk, hdm, hg]
      · by_cases hpl : c.pluginOk = false
        · simp [initProvider, hk, hdm, hg, hpl]
        · simp [initProvider, hk, hdm, hg, hpl]

/-- After one `Initialize` call, the `initialized` flag is the old flag unless
this call succeeded, in which case it is raised. -/
theorem initProvider_flag (p : GoogleAIProvider) (c : InitCall) :
    (initProvider p c).2.initialized = (p.initialized || exceptOk (initProvider p c).1) := by
  by_cases hk : (parseConfig c.config).apiKey = ""
  · simp [initProvider, hk, exceptOk]
  · by_cases hg : c.genkitOk = false
    · simp [initProvider, hk, hg, exceptOk]
    · by_cases hpl : c.pluginOk = false
      · simp [initProvider, hk, hg, hpl, exceptOk]
      · simp [initProvider, hk, hg, hpl, exceptOk]

/-- Across any sequence of `Initialize` calls, the final `initialized` flag
records whether the starting flag was set or some call succeeded, and the
initialized-implies-nonempty-key invariant is maintained. -/
theorem runInits_spec :
    ∀ (cs : List InitCall) (p : GoogleAIProvider),
      (p.initialized = true → p.config.apiKey ≠ "") →
      ((runInits p cs).1.initialized = (p.initialized || (runInits p cs).2.contains true)) ∧
      ((runInits p cs).1.initialized = true → (runInits p cs).1.config.apiKey ≠ "") := by
  intro cs
  induction cs with
  | nil =>
    intro p hp
    exact ⟨by simp [runInits], by simpa [runInits] using hp⟩
  | cons c cs ih =>
    intro p hp
    have hinv := initProvider_inv p c hp
    have hflag := initProvider_flag p c
    have hrec := ih (initProvider p c).2 hinv
    refine ⟨?_, ?_⟩
    · simp only [runInits, List.contains_cons]
      rw [hrec.1, hflag]
      cases p.initialized <;> cases exceptOk (initProvider p c).1 <;> simp
    · simpa [runInits] using hrec.2

/-- C1 (counterexample): the claim "if N ≥ maxRetries, the call returns an
aggregated failure" is false on the code.  With `maxRetries = 1` and a stub
that fails transiently exactly N = 1 = maxRetries times and then succeeds, the
loop (whose attempts run from 0 through maxRetries inclusive) returns success
after 2 attempts instead of an aggregated failure. -/
theorem C1_counterexample :
    (withRetry { maxRetries := 1, baseDelay := 1, maxDelay := 4 } c1cfn noCancel).result =
      RetryResult.ok 11 ∧
    (withRetry { maxRetries := 1, baseDelay := 1, maxDelay := 4 } c1cfn noCancel).calls = 2 :=
  ⟨rfl, rfl⟩

/-- C1 (amended): if the underlying call fails transiently N times and then
succeeds, the Gateway returns success after exactly N+1 attempts whenever
N ≤ maxRetries; if N > maxRetries, it returns an aggregated failure after
exactly maxRetries+1 attempts (never more). -/
theorem C1_amended {α : Type} (cfg : RetryConfig) (fn : Nat → Except String α)
    (errs : Nat → String) (N : Nat) (v : α)
    (hfail : ∀ i, i < N → fn i = Except.error (errs i))
    (hret : ∀ i, i < N → isRetryable (some (errs i)) = true) :
    (N ≤ cfg.maxRetries → fn N = Except.ok v →
      (withRetry cfg fn noCancel).result = RetryResult.ok v ∧
      (withRetry cfg fn noCancel).calls = N + 1) ∧
    (cfg.maxRetries < N →
      (withRetry cfg fn noCancel).result =
        RetryResult.aggFailure (cfg.maxRetries + 1) (some (errs cfg.maxRetries)) ∧
      (withRetry cfg fn noCancel).calls = cfg.maxRetries + 1) := by
  constructor
  · intro hN hok
    exact retryLoop_success cfg fn errs v N (cfg.maxRetries + 1) 0 none (by omega)
      (fun i hi => by simpa using hfail i hi)
      (fun i hi => by simpa using hret i hi)
      (by simpa using hok)
  · intro hN
    have h := retryLoop_exhaust cfg fn errs (cfg.maxRetries + 1) 0 none
      (fun i hi => by simpa using hfail i (by omega))
      (fun i hi => by simpa using hret i (by omega))
    refine ⟨?_, h.2⟩
    show (retryLoop cfg fn noCancel (cfg.maxRetries + 1) 0 none).result = _
    rw [h.1]
    simp

/-- C1 (witness for the amended theorem): `maxRetries = 2`, one transient
failure then success, so the call succeeds after 2 attempts. -/
theorem C1_witness :
    (withRetry { maxRetries := 2, baseDelay := 1, maxDelay := 4 } c1fn noCancel).result =
      RetryResult.ok 3 ∧
    (withRetry { maxRetries := 2, baseDelay := 1, maxDelay := 4 } c1fn noCancel).calls = 2 :=
  (C1_amended { maxRetries := 2, baseDelay := 1, maxDelay := 4 } c1fn (fun _ => "timeout") 1 3
    (fun i hi => by
      have : i = 0 := by omega
      subst this; rfl)
    (fun i hi => by
      have : i = 0 := by omega
      subst this; rfl)).1 (by decide) rfl

/-- C2: `isRetryable` classifies every call outcome, and a non-transient
error is never retried: as soon as a call returns an error that `isRetryable`
rejects, the loop makes no further attempt (exactly j+1 calls when the first
j outcomes were transient) and surfaces the aggregated failure wrapping that
error. -/
theorem C2_fatal_stops {α : Type} (cfg : RetryConfig) (fn : Nat → Except String α)
    (errs : Nat → String) (e : String) (j : Nat)
    (hj : j ≤ cfg.maxRetries)
    (hfail : ∀ i, i < j → fn i = Except.error (errs i))
    (hret : ∀ i, i < j → isRetryable (some (errs i)) = true)
    (he : fn j = Except.error e)
    (hnr : isRetryable (some e) = false) :
    (withRetry cfg fn noCancel).calls = j + 1 ∧
    (withRetry cfg fn noCancel).result =
      RetryResult.aggFailure (cfg.maxRetries + 1) (some e) := by
  have h := retryLoop_fatal cfg fn errs e j (cfg.maxRetries + 1) 0 none (by omega)
    (fun i hi => by simpa using hfail i hi)
    (fun i hi => by simpa using hret i hi)
    (by simpa using he)
    hnr
  exact ⟨h.2, h.1⟩

/-- C2 (witness): a fatal error on the very first call is never retried —
one single call, failure surfaced. -/
theorem C2_witness :
    (withRetry defaultRetryConfig c2fn noCancel).calls = 0 + 1 ∧
    (withRetry defaultRetryConfig c2fn noCancel).result =
      RetryResult.aggFailure (defaultRetryConfig.maxRetries + 1) (some "invalid api key") :=
  C2_fatal_stops defaultRetryConfig c2fn (fun _ => "") "invalid api key" 0
    (by omega) (fun i hi => by omega) (fun i hi => by omega) rfl rfl

/-- C3: every backoff delay the loop actually waits follows the exponential
schedule: the delay waited before the (i+1)-st retry attempt equals
min(baseDelay * 2^i, maxDelay). -/
theorem C3_backoff {α : Type} (cfg : RetryConfig) (fn : Nat → Except String α)
    (cancelled : Nat → Bool) (i : Nat)
    (h : i < (withRetry cfg fn cancelled).delays.length) :
    (withRetry cfg fn cancelled).delays.getD i 0 =
      min (cfg.baseDelay * 2 ^ i) cfg.maxDelay := by
  rcases retryLoop_delays cfg fn cancelled (cfg.maxRetries + 1) 0 none with ⟨n, hn⟩
  have hn' : (withRetry cfg fn cancelled).delays =
      (List.range' 1 n).map (backoffDelay cfg) := by
    simpa [withRetry] using hn
  rw [hn'] at h ⊢
  rw [List.getD_eq_getElem _ _ h]
  simp only [List.getElem_map, List.getElem_range']
  simp [backoffDelay]

/-- C3 (witness): with base delay 5 and max delay 20, the wait before the
first retry is min(5 * 2^0, 20) = 5. -/
theorem C3_witness :
    0 < (withRetry c3cfg c3fn noCancel).delays.length ∧
    (withRetry c3cfg c3fn noCancel).delays.getD 0 0 = min (c3cfg.baseDelay * 2 ^ 0) c3cfg.maxDelay :=
  ⟨by decide, C3_backoff c3cfg c3fn noCancel 0 (by decide)⟩

/-- C4 (counterexample): the claim "a structurally invalid structured-output
result is retried exactly once with reinforced formatting instructions" is
false on the code.  A schema-validation failure message matches none of the
transient patterns, so `withRetryStructured` makes exactly one call — no
retry, no reinforcement — and surfaces the aggregated failure (which even
reports maxRetries+1 = 4 attempts). -/
theorem C4_counterexample :
    (withRetryStructured defaultRetryConfig c4fn noCancel).calls = 1 ∧
    (withRetryStructured defaultRetryConfig c4fn noCancel).result =
      RetryResult.aggFailure 4 (some c4err) :=
  ⟨rfl, rfl⟩

/-- C4 (amended): a structured-output call whose result fails schema
validation is retried only under the generic transient-error policy; a
validation error whose message matches no transient pattern is surfaced
immediately after a single call, and no path alters the prompt between
attempts (the same closure is re-invoked), so no reinforced formatting
instructions exist. -/
theorem C4_amended {α : Type} (cfg : RetryConfig) (fn : Nat → Except String α) (e : String)
    (he : fn 0 = Except.error e)
    (hnr : isRetryable (some e) = false) :
    (withRetryStructured cfg fn noCancel).calls = 1 ∧
    (withRetryStructured cfg fn noCancel).result =
      RetryResult.aggFailure (cfg.maxRetries + 1) (some e) ∧
    (∀ c : Nat → Bool, withRetryStructured cfg fn c = withRetry cfg fn c) := by
  have h := retryLoop_fatal cfg fn (fun _ => "") e 0 (cfg.maxRetries + 1) 0 none
    (by omega) (fun i hi => by omega) (fun i hi => by omega) (by simpa using he) hnr
  exact ⟨h.2, h.1, fun c => rfl⟩

/-- C4 (witness for the amended theorem): an "invalid json" validation
failure is surfaced after exactly one structured call. -/
theorem C4_witness :
    (withRetryStructured c3cfg c4wfn noCancel).calls = 1 ∧
    (withRetryStructured c3cfg c4wfn noCancel).result =
      RetryResult.aggFailure (c3cfg.maxRetries + 1) (some "invalid json") ∧
    (∀ c : Nat → Bool, withRetryStructured c3cfg c4wfn c = withRetry c3cfg c4wfn c) :=
  C4_amended c3cfg c4wfn "invalid json" rfl rfl

/-- C5: if a fallback provider is configured and the primary is unavailable
or its retry run did not produce a success, the manager attempts the fallback
exactly once, and what it surfaces to the caller is that single fallback
outcome. -/
theorem C5_fallback_once {α : Type} (cfg : RetryConfig) (primaryAvailable : Bool)
    (primaryFn : Nat → Except String α) (fallbackFn : Unit → Except String α)
    (hfail : primaryAvailable = false ∨
      ∀ v, (withRetry cfg primaryFn noCancel).result ≠ RetryResult.ok v) :
    (managerCall cfg primaryAvailable primaryFn true fallbackFn).fallbackCalls = 1 ∧
    (managerCall cfg primaryAvailable primaryFn true fallbackFn).result = fallbackFn () := by
  cases primaryAvailable with
  | false => simp [managerCall]
  | true =>
    have hne : ∀ v, (withRetry cfg primaryFn noCancel).result ≠ RetryResult.ok v := by
      rcases hfail with h | h
      · exact absurd h (by simp)
      · exact h
    simp only [managerCall, if_pos rfl]
    cases hres : (withRetry cfg primaryFn noCancel).result with
    | ok v => exact absurd hres (hne v)
    | ctxErr => simp
    | aggFailure n e => simp

/-- C5 (witness): primary unavailable, fallback configured — the fallback is
attempted exactly once and its success is surfaced. -/
theorem C5_witness :
    (managerCall defaultRetryConfig false c2fn true (fun _ => Except.ok 9)).fallbackCalls = 1 ∧
    (managerCall defaultRetryConfig false c2fn true (fun _ => Except.ok 9)).result =
      (fun _ : Unit => Except.ok 9) () :=
  C5_fallback_once defaultRetryConfig false c2fn (fun _ => Except.ok 9) (Or.inl rfl)

/-- C6: when every attempt (0 through maxRetries) fails transiently, the
Gateway exhausts its retries and returns a single aggregated failure that
reports the total attempt count maxRetries+1 — exactly the number of calls
made — and wraps the final error observed. -/
theorem C6_aggregated {α : Type} (cfg : RetryConfig) (fn : Nat → Except String α)
    (errs : Nat → String)
    (hfail : ∀ i, i ≤ cfg.maxRetries → fn i = Except.error (errs i))
    (hret : ∀ i, i ≤ cfg.maxRetries → isRetryable (some (errs i)) = true) :
    (withRetry cfg fn noCancel).result =
      RetryResult.aggFailure (cfg.maxRetries + 1) (some (errs cfg.maxRetries)) ∧
    (withRetry cfg fn noCancel).calls = cfg.maxRetries + 1 := by
  have h := retryLoop_exhaust cfg fn errs (cfg.maxRetries + 1) 0 none
    (fun i hi => by simpa using hfail i (by omega))
    (fun i hi => by simpa using hret i (by omega))
  refine ⟨?_, h.2⟩
  show (retryLoop cfg fn noCancel (cfg.maxRetries + 1) 0 none).result = _
  rw [h.1]
  simp

/-- C6 (witness): with maxRetries = 3 and every call failing with
"rate limit", the run makes 4 calls and returns the aggregated failure
reporting 4 attempts and wrapping "rate limit". -/
theorem C6_witness :
    (withRetry defaultRetryConfig c6fn noCancel).result =
      RetryResult.aggFailure (defaultRetryConfig.maxRetries + 1) (some "rate limit") ∧
    (withRetry defaultRetryConfig c6fn noCancel).calls = defaultRetryConfig.maxRetries + 1 :=
  C6_aggregated defaultRetryConfig c6fn (fun _ => "rate limit")
    (fun _ _ => rfl) (fun _ _ => rfl)

/-- C7: if the caller's context becomes done during the backoff wait
preceding attempt k (after k transient failures, with no earlier wait
cancelled), the call returns the context's error and the closure is never
invoked again: exactly k calls were made, all before the cancellation. -/
theorem C7_cancellation {α : Type} (cfg : RetryConfig) (fn : Nat → Except String α)
    (cancelled : Nat → Bool) (errs : Nat → String) (k : Nat)
    (hk1 : 1 ≤ k) (hk2 : k ≤ cfg.maxRetries)
    (hfail : ∀ i, i < k → fn i = Except.error (errs i))
    (hret : ∀ i, i < k → isRetryable (some (errs i)) = true)
    (hquiet : ∀ i, 1 ≤ i → i < k → cancelled i = false)
    (hc : cancelled k = true) :
    (withRetry cfg fn cancelled).result = RetryResult.ctxErr ∧
    (withRetry cfg fn cancelled).calls = k :=
  retryLoop_cancel cfg fn cancelled errs k (cfg.maxRetries + 1) 0 none (by omega) (by omega)
    (fun i hi => by simpa using hfail i hi)
    (fun i hi => by simpa using hret i hi)
    (fun i hi hle => by simpa using hquiet i (by omega) hi)
    (by simpa using hc)

/-- C7 (witness): one transient failure, then the context is cancelled during
the first backoff wait — the context error is returned after exactly 1 call. -/
theorem C7_witness :
    (withRetry { maxRetries := 2, baseDelay := 1, maxDelay := 4 } c6fn c7cancel).result =
      RetryResult.ctxErr ∧
    (withRetry { maxRetries := 2, baseDelay := 1, maxDelay := 4 } c6fn c7cancel).calls = 1 :=
  C7_cancellation { maxRetries := 2, baseDelay := 1, maxDelay := 4 } c6fn c7cancel
    (fun _ => "rate limit") 1 (by decide) (by decide)
    (fun i hi => rfl) (fun i hi => rfl)
    (fun i h1 h2 => by omega) rfl

/-- C8: the Scratchpad round-trip law — reading an iteration's entry right
after writing it (compression on write, decompression on read) yields content
equal to the note written, for any non-empty textual note and any prior
scratchpad contents. -/
theorem C8_round_trip (sp : List ScratchpadEntry) (id : Nat) (note : List Char)
    (_hne : note ≠ []) :
    scratchpadRead (scratchpadWrite sp id note) id = some note := by
  simp only [scratchpadWrite, scratchpadRead]
  rw [List.find?_cons_of_pos _ (by simp)]
  simp [rle_roundtrip]

/-- C8 (witness): writing "hello" under iteration 2 into an empty scratchpad
and reading it back yields "hello". -/
theorem C8_witness :
    scratchpadRead (scratchpadWrite [] 2 ['h', 'e', 'l', 'l', 'o']) 2 =
      some ['h', 'e', 'l', 'l', 'o'] :=
  C8_round_trip [] 2 ['h', 'e', 'l', 'l', 'o'] (by decide)

/-- C9: any call to GenerateText, GenerateWithStructuredOutput or CallTool on
a provider whose Initialize has not completed successfully returns the
"provider not initialized" error, performs zero model invocations, and leaves
the provider state unchanged. -/
theorem C9_uninitialized_guard {α : Type} (p : GoogleAIProvider)
    (fnT fnC : Nat → Except String String) (fnS : Nat → Except String α)
    (cancelled : Nat → Bool) (toolName : String)
    (h : p.initialized = false) :
    generateText p fnT cancelled = (Except.error "provider not initialized", p, 0) ∧
    generateWithStructuredOutput p fnS cancelled =
      (Except.error "provider not initialized", p, 0) ∧
    callTool p toolName fnC cancelled = (none, some "provider not initialized", p, 0) := by
  refine ⟨?_, ?_, ?_⟩ <;>
    simp [generateText, generateWithStructuredOutput, callTool, h]

/-- C9 (witness): the three guards on a freshly constructed provider. -/
theorem C9_witness :
    generateText newGoogleAIProvider (fun _ => Except.ok "x") noCancel =
      (Except.error "provider not initialized", newGoogleAIProvider, 0) ∧
    generateWithStructuredOutput newGoogleAIProvider (fun _ => Except.ok (0 : Nat)) noCancel =
      (Except.error "provider not initialized", newGoogleAIProvider, 0) ∧
    callTool newGoogleAIProvider "lookup" (fun _ => Except.ok "y") noCancel =
      (none, some "provider not initialized", newGoogleAIProvider, 0) :=
  C9_uninitialized_guard newGoogleAIProvider (fun _ => Except.ok "x") (fun _ => Except.ok "y")
    (fun _ => Except.ok (0 : Nat)) noCancel "lookup" rfl

/-- C10: starting from a fresh provider, IsAvailable is true after any
sequence of Initialize calls exactly when some call in the sequence returned
success; and an Initialize call whose configuration has an empty or missing
api_key always returns an error and leaves the provider state (in particular
the `initialized` flag, hence IsAvailable) unchanged. -/
theorem C10_availability (cs : List InitCall) (p : GoogleAIProvider) (c : InitCall)
    (hkey : (parseConfig c.config).apiKey = "") :
    (isAvailable (runInits newGoogleAIProvider cs).1 = true ↔
      (runInits newGoogleAIProvider cs).2.contains true = true) ∧
    (initProvider p c).1 = Except.error "Google AI API key is required" ∧
    (initProvider p c).2 = p := by
  refine ⟨?_, ?_, ?_⟩
  · have h := runInits_spec cs newGoogleAIProvider
      (by intro hcontra; simp [newGoogleAIProvider] at hcontra)
    constructor
    · intro hav
      have hinit : (runInits newGoogleAIProvider cs).1.initialized = true := by
        simp only [isAvailable, Bool.and_eq_true] at hav
        exact hav.2
      rw [h.1] at hinit
      simpa [newGoogleAIProvider] using hinit
    · intro hc
      have hinit : (runInits newGoogleAIProvider cs).1.initialized = true := by
        rw [h.1, hc]
        simp [newGoogleAIProvider]
      have hk := h.2 hinit
      simp [isAvailable, hinit, hk]
  · simp [initProvider, hkey]
  · simp [initProvider, hkey]

/-- C10 (witness): an empty configuration map (missing api_key) makes
Initialize fail and leaves the fresh provider untouched; with no calls made,
IsAvailable is false and no success was recorded. -/
theorem C10_witness :
    (isAvailable (runInits newGoogleAIProvider []).1 = true ↔
      (runInits newGoogleAIProvider []).2.contains true = true) ∧
    (initProvider newGoogleAIProvider { config := [], genkitOk := true, pluginOk := true }).1 =
      Except.error "Google AI API key is required" ∧
    (initProvider newGoogleAIProvider { config := [], genkitOk := true, pluginOk := true }).2 =
      newGoogleAIProvider :=
  C10_availability [] newGoogleAIProvider
    { config := [], genkitOk := true, pluginOk := true } rfl
